import Mathlib

/-!
Shallow embedding of the sequence-node client SDK (TypeScript sources under
src/unnamed/part_000, part_001, part_002 and src/src/event-validation.ts).

The main model follows the track/identify client variant (src/unnamed/part_001):
its constructor option handling, queue, enqueue triggers, and the synchronous
part of flush.  HTTP transport, timers and randomness are external
collaborators; they are modelled as explicit inputs (an HttpOutcome value, a
fresh timer handle, the strings produced by the uniqid/md5/uuid generators),
and the asynchronous settlement of a flush is modelled as a pure function from
the dispatched batch and the transport outcome to a list of callback
invocations.  A second, smaller embedding covers the alert client variant
(src/unnamed/part_000) and the local event validator (src/src/event-validation.ts).
-/

namespace SequenceNode

/-- Model of a JavaScript number as far as the client's option handling
observes one: an integer, some non-integer finite number, or NaN.
A non-integer finite number is always truthy (it is nonzero). -/
inductive JSNum where
  | int (i : Int)
  | nonIntNum
  | nan
deriving DecidableEq

/-- JavaScript truthiness of a number: 0 and NaN are falsy. -/
def JSNum.truthy : JSNum → Bool
  | .int i => i != 0
  | .nonIntNum => true
  | .nan => false

/-- Model of Number.isInteger. -/
def JSNum.isIntegerNum : JSNum → Bool
  | .int _ => true
  | _ => false

/-- Integer value of a JSNum (junk 0 on non-integers, used only under
an isIntegerNum guard). -/
def JSNum.intVal : JSNum → Int
  | .int i => i
  | _ => 0

/-- Constructor options observed by the verified claims
(src/unnamed/part_001 lines 55-81); `none` models an omitted option. -/
structure SequenceOptions where
  flushAt : Option JSNum := none
  flushInterval : Option JSNum := none
  enable : Option Bool := none
deriving DecidableEq

/-- src/unnamed/part_001 line 64:
`options.flushAt && Number.isInteger(options.flushAt) ? options.flushAt : DEFAULT_FLUSH_AT`. -/
def resolveFlushAt : Option JSNum → Int
  | some v => if v.truthy && v.isIntegerNum then v.intVal else 20
  | none => 20

/-- src/unnamed/part_001 line 65:
`options.flushInterval || DEFAULT_FLUSH_INTERVAL` (|| replaces any falsy value). -/
def resolveFlushInterval : Option JSNum → JSNum
  | some v => if v.truthy then v else .int 10000
  | none => .int 10000

/-- The wire payload built by enqueue (src/unnamed/part_001 lines 115-132).
The constant `_metadata`/`context.library` strings are carried verbatim. -/
structure EventPayload where
  eventType : String
  userId : String
  timestamp : Int
  messageId : String
  sentAt : Option Int
  receivedAt : Option Int
  librarySdk : String := "sequence-node"
deriving DecidableEq

/-- The caller-supplied message fields that the enqueue payload builder reads
(`Track`/`Identify` from src/unnamed types); `none` models a null/undefined
field (the `??` operator's trigger). -/
structure MessageIn where
  userId : String
  timestamp : Option Int := none
  messageId : Option String := none
deriving DecidableEq

/-- Payload construction, src/unnamed/part_001 lines 115-136.
`now` models `new Date()`; `uniqidVal` the string returned by `uniqid()`;
`md5Val` the string `md5(JSON.stringify(payload))`; `uuidVal` the string
returned by `uuid()` — all external, nondeterministic collaborators passed
as explicit inputs. -/
def buildPayload (event : String) (message : MessageIn) (now : Int)
    (uniqidVal md5Val uuidVal : String) : EventPayload :=
  let payload : EventPayload :=
    { eventType := event
      userId := message.userId
      timestamp := message.timestamp.getD now
      messageId := message.messageId.getD uniqidVal
      sentAt := none
      receivedAt := none }
  if payload.messageId = "" then
    { payload with messageId := "node-" ++ md5Val ++ "-" ++ uuidVal }
  else
    payload

/-- One queue entry (src/unnamed QueueItem): a payload paired with its
completion callback; callbacks are opaque, identified by a number. -/
structure QueueItem where
  message : EventPayload
  callback : Nat
deriving DecidableEq

/-- The mutable client state (fields of the Sequence class,
src/unnamed/part_001 lines 43-54).  `timer` holds the armed setTimeout
handle, `none` models the null handle. -/
structure ClientState where
  queue : List QueueItem
  flushAt : Int
  flushInterval : JSNum
  flushed : Bool
  enable : Bool
  timer : Option Nat
deriving DecidableEq

/-- The constructor, src/unnamed/part_001 lines 55-81 (state fields only;
host/timeout/retry wiring does not affect the verified claims). -/
def initClient (opts : SequenceOptions) : ClientState :=
  { queue := []
    flushAt := resolveFlushAt opts.flushAt
    flushInterval := resolveFlushInterval opts.flushInterval
    flushed := false
    enable := opts.enable.getD true
    timer := none }

/-- Number of items `queue.splice(0, deleteCount)` removes: the JS spec clamps
the delete count to the interval from 0 to the array length. -/
def spliceCount (len : Nat) (deleteCount : Int) : Nat :=
  (min deleteCount (len : Int)).toNat

/-- `sentAt` stamping applied to each item pulled into a batch
(src/unnamed/part_001 lines 181-184). -/
def stampSent (now : Int) (it : QueueItem) : QueueItem :=
  { it with message := { it.message with sentAt := some now } }

/-- The synchronous part of flush (src/unnamed/part_001 lines 162-189):
the enable check, timer clearing, empty-queue early return, the
`splice(0, flushAt)` slice-taking and `sentAt` stamping.  Returns the new
state and `some batch` when an HTTP request is dispatched with that batch;
`none` models the early `setImmediate(callback)` return (the flush callback
is invoked immediately with no error and no data). -/
def flushSyncStep (s : ClientState) (now : Int) : ClientState × Option (List QueueItem) :=
  if s.enable = false then
    (s, none)
  else
    let s1 := { s with timer := none }
    if s1.queue.length = 0 then
      (s1, none)
    else
      let cnt := spliceCount s1.queue.length s1.flushAt
      let batch := (s1.queue.take cnt).map (stampSent now)
      ({ s1 with queue := s1.queue.drop cnt }, some batch)

/-- A JS Error value as flush callbacks observe it: either an Error object
built from a response's status text (`new Error(err.response.statusText)`)
or the raw transport error forwarded unchanged. -/
inductive JsErr where
  | errorObj (message : String)
  | transport (code : String) (message : String)
deriving DecidableEq

/-- Outcome of the axios POST for one flush: success with a response,
failure carrying a server response (only its statusText is read), or a
transport failure with no response. -/
inductive HttpOutcome where
  | ok (res : Nat)
  | failWithResponse (statusText : String)
  | failNoResponse (err : JsErr)
deriving DecidableEq

/-- The error argument `done` passes to every callback
(src/unnamed/part_001 lines 212-242). -/
def outcomeErr : HttpOutcome → Option JsErr
  | .ok _ => none
  | .failWithResponse st => some (.errorObj st)
  | .failNoResponse e => some e

/-- The data argument `done` passes to every callback: the response on
success, nothing on failure. -/
def outcomeData : HttpOutcome → Option Nat
  | .ok r => some r
  | .failWithResponse _ => none
  | .failNoResponse _ => none

/-- One recorded callback invocation. -/
structure CallbackCall where
  callbackId : Nat
  error : Option JsErr
  data : Option Nat
deriving DecidableEq

/-- The `done` fan-out once the HTTP call settles
(src/unnamed/part_001 lines 191-194 with the then/catch wiring of lines
212-242): every per-item callback of the dispatched batch is invoked with
the outcome's (error, data), then the explicit flush callback (when one was
supplied) with the same arguments. -/
def flushSettle (batch : List QueueItem) (flushCb : Option Nat) (o : HttpOutcome) :
    List CallbackCall :=
  (batch.map fun it => { callbackId := it.callback, error := outcomeErr o, data := outcomeData o })
    ++ (match flushCb with
        | some c => [{ callbackId := c, error := outcomeErr o, data := outcomeData o }]
        | none => [])

/-- The promise returned when no flush callback is supplied
(src/unnamed/part_001 lines 225-242): resolves with the response, rejects
with the same error value the per-item callbacks received. -/
def flushPromise (o : HttpOutcome) : Except JsErr Nat :=
  match o with
  | .ok r => .ok r
  | .failWithResponse st => .error (.errorObj st)
  | .failNoResponse e => .error e

/-- Observable result of one enqueue call: the state it leaves, whether the
disabled-path `setImmediate(callback)` fired, how many times `this.flush()`
was invoked during the call, and the batches those flushes dispatched. -/
structure EnqueueResult where
  state : ClientState
  immediateCallback : Bool
  flushCalls : Nat
  batches : List (List QueueItem)
deriving DecidableEq

/-- enqueue, src/unnamed/part_001 lines 108-153.  `cb` is the (opaque)
callback attached to the queued item, `newTimerId` the fresh handle a
`setTimeout` call would return. -/
def enqueue (s : ClientState) (event : String) (message : MessageIn) (cb : Nat)
    (now : Int) (uniqidVal md5Val uuidVal : String) (newTimerId : Nat) : EnqueueResult :=
  if s.enable = false then
    { state := s, immediateCallback := true, flushCalls := 0, batches := [] }
  else
    let payload := buildPayload event message now uniqidVal md5Val uuidVal
    let s1 := { s with queue := s.queue ++ [{ message := payload, callback := cb }] }
    if s1.flushed = false then
      let s2 := { s1 with flushed := true }
      let fr := flushSyncStep s2 now
      { state := fr.1, immediateCallback := false, flushCalls := 1, batches := fr.2.toList }
    else
      let afterThreshold :=
        if (s1.queue.length : Int) ≥ s1.flushAt then
          let fr := flushSyncStep s1 now
          (fr.1, 1, fr.2.toList)
        else
          (s1, 0, ([] : List (List QueueItem)))
      let s2 := afterThreshold.1
      let s3 :=
        if s2.flushInterval.truthy && s2.timer.isNone then
          { s2 with timer := some newTimerId }
        else
          s2
      { state := s3, immediateCallback := false,
        flushCalls := afterThreshold.2.1, batches := afterThreshold.2.2 }

/-- A JavaScript runtime value as the event validator observes one
(component-type distinguishes dates, arrays and null from plain objects). -/
inductive JSValue where
  | vstr (s : String)
  | vnum (n : JSNum)
  | vbool (b : Bool)
  | vnull
  | vundefined
  | vdate (epochMs : Int)
  | varr (elems : List JSValue)
  | vobj (fields : List (String × JSValue))

/-- Model of the component-type tag used by the validator
(`type(x)` from the component-type package). -/
def JSValue.typeTag : JSValue → String
  | .vstr _ => "string"
  | .vnum _ => "number"
  | .vbool _ => "boolean"
  | .vnull => "null"
  | .vundefined => "undefined"
  | .vdate _ => "date"
  | .varr _ => "array"
  | .vobj _ => "object"

/-- JavaScript truthiness of a value. -/
def JSValue.truthy : JSValue → Bool
  | .vstr s => s != ""
  | .vnum n => n.truthy
  | .vbool b => b
  | .vnull => false
  | .vundefined => false
  | .vdate _ => true
  | .varr _ => true
  | .vobj _ => true

/-- Property access `x[key]`: undefined on a missing key or a non-object. -/
def JSValue.getField : JSValue → String → JSValue
  | .vobj fields, k => ((fields.lookup k).getD .vundefined)
  | _, _ => .vundefined

mutual

/-- Model of JSON.stringify (an external collaborator, src excludes it):
only the UTF-8 byte length of the result is observed by the validator's
size check, so string escaping and date formatting are modelled plainly. -/
def jsonOfVal : JSValue → String
  | .vstr s => "\"" ++ s ++ "\""
  | .vnum (.int i) => toString i
  | .vnum .nonIntNum => "0.5"
  | .vnum .nan => "null"
  | .vbool b => if b then "true" else "false"
  | .vnull => "null"
  | .vundefined => "null"
  | .vdate t => "\"" ++ toString t ++ "\""
  | .varr xs => "[" ++ jsonOfList xs ++ "]"
  | .vobj fs => "\x7b" ++ jsonOfFields fs ++ "\x7d"

/-- Comma-separated serialization of array elements. -/
def jsonOfList : List JSValue → String
  | [] => ""
  | [x] => jsonOfVal x
  | x :: y :: xs => jsonOfVal x ++ "," ++ jsonOfList (y :: xs)

/-- Comma-separated serialization of object members. -/
def jsonOfFields : List (String × JSValue) → String
  | [] => ""
  | [(k, v)] => "\"" ++ k ++ "\":" ++ jsonOfVal v
  | (k, v) :: f :: fs => "\"" ++ k ++ "\":" ++ jsonOfVal v ++ "," ++ jsonOfFields (f :: fs)

end

/-- src/src/event-validation.ts line 8: `MAX_SIZE = 32 << 10`. -/
def MAX_SIZE : Nat := 32 * 1024

/-- src/src/event-validation.ts lines 38-45: the generic per-field rules,
in source order; each field has one allowed component-type tag. -/
def genericValidationRules : List (String × String) :=
  [("event", "string"), ("properties", "object"), ("alias", "string"),
   ("timestamp", "date"), ("distinctId", "string"), ("type", "string")]

/-- The loop body of validateGenericEvent (src/src/event-validation.ts
lines 68-85): a falsy field value is skipped; a truthy one must carry the
rule's type tag. -/
def checkGenericRules (ev : JSValue) : List (String × String) → Except String Unit
  | [] => .ok ()
  | (key, rule) :: rest =>
    let val := ev.getField key
    if val.truthy = false then
      checkGenericRules ev rest
    else if val.typeTag = rule then
      checkGenericRules ev rest
    else
      .error ("\"" ++ key ++ "\" must be " ++ (if rule = "object" then "an" else "a")
        ++ " " ++ rule ++ ".")

/-- validateGenericEvent, src/src/event-validation.ts lines 62-86: the event
must be a plain object, its serialization must be under 32 KiB of UTF-8,
and every truthy generic field must match its rule. -/
def validateGenericEvent (ev : JSValue) : Except String Unit :=
  if ev.typeTag = "object" then
    if (jsonOfVal ev).utf8ByteSize < MAX_SIZE then
      checkGenericRules ev genericValidationRules
    else
      .error "Your message must be < 32kb."
  else
    .error "You must pass a message object."

/-- validateAlertEvent, src/src/event-validation.ts lines 29-32:
`assert(event.message)` and `assert(event.name)` check truthiness. -/
def validateAlertEvent (ev : JSValue) : Except String Unit :=
  if (ev.getField "message").truthy = false then
    .error "You must pass a \"message\"."
  else if (ev.getField "name").truthy = false then
    .error "You must pass a \"name\"."
  else
    .ok ()

/-- eventValidation, src/src/event-validation.ts lines 14-23. -/
def eventValidation (ev : JSValue) (ty : String) : Except String Unit :=
  match validateGenericEvent ev with
  | .error e => .error e
  | .ok _ =>
    if ty = "" then
      .error "You must pass an event type."
    else if ty = "alert" then
      validateAlertEvent ev
    else
      .error ("Invalid event type: \"" ++ ty ++ "\"")

/-- True when a validation call throws. -/
def validationFails (r : Except String Unit) : Bool :=
  match r with
  | .ok _ => false
  | .error _ => true

/-- Queue entry of the alert client variant (src/unnamed/part_000):
its payload is the built alert event object. -/
structure AlertQueueItem where
  message : JSValue
  callback : Nat

/-- Mutable state of the alert client variant (src/unnamed/part_000
lines 31-42); fields are identical to the track/identify variant,
only the queued payload type differs. -/
structure AlertClientState where
  queue : List AlertQueueItem
  flushAt : Int
  flushInterval : JSNum
  flushed : Bool
  enable : Bool
  timer : Option Nat

/-- Payload construction of the alert enqueue (src/unnamed/part_000 lines
106-116): spread of the incoming event with type, distinctId, the library
properties merged over the caller's, and `timestamp ?? new Date()`.
Overriding bindings are placed first, matching the lookup-first field
access of the model. -/
def buildAlertPayload (ty distinctId : String) (incoming : JSValue) (now : Int)
    (libVersion : String) : JSValue :=
  let props :=
    match incoming.getField "properties" with
    | .vobj pfs => JSValue.vobj
        ([("$library", .vstr "sequence-node"), ("$library_version", .vstr libVersion)] ++ pfs)
    | _ => JSValue.vobj
        [("$library", .vstr "sequence-node"), ("$library_version", .vstr libVersion)]
  let ts :=
    match incoming.getField "timestamp" with
    | .vundefined => JSValue.vdate now
    | .vnull => JSValue.vdate now
    | v => v
  match incoming with
  | .vobj fs => JSValue.vobj
      ([("type", .vstr ty), ("distinctId", .vstr distinctId),
        ("properties", props), ("timestamp", ts)] ++ fs)
  | _ => JSValue.vobj
      [("type", .vstr ty), ("distinctId", .vstr distinctId),
       ("properties", props), ("timestamp", ts)]

/-- Observable result of one alert-variant enqueue call. -/
structure AlertEnqueueResult where
  state : AlertClientState
  immediateCallback : Bool
  flushCalls : Nat
  batches : List (List AlertQueueItem)

/-- The synchronous part of the alert variant's flush
(src/unnamed/part_000 lines 142-160); it does not stamp sentAt. -/
def alertFlushSyncStep (s : AlertClientState) : AlertClientState × Option (List AlertQueueItem) :=
  if s.enable = false then
    (s, none)
  else
    let s1 := { s with timer := none }
    if s1.queue.length = 0 then
      (s1, none)
    else
      let cnt := spliceCount s1.queue.length s1.flushAt
      ({ s1 with queue := s1.queue.drop cnt }, some (s1.queue.take cnt))

/-- enqueue of the alert client variant, src/unnamed/part_000 lines 99-133;
the trigger logic is identical to the track/identify variant. -/
def enqueueAlert (s : AlertClientState) (ty distinctId : String) (incoming : JSValue)
    (cb : Nat) (now : Int) (libVersion : String) (newTimerId : Nat) : AlertEnqueueResult :=
  if s.enable = false then
    { state := s, immediateCallback := true, flushCalls := 0, batches := [] }
  else
    let payload := buildAlertPayload ty distinctId incoming now libVersion
    let s1 := { s with queue := s.queue ++ [{ message := payload, callback := cb }] }
    if s1.flushed = false then
      let s2 := { s1 with flushed := true }
      let fr := alertFlushSyncStep s2
      { state := fr.1, immediateCallback := false, flushCalls := 1, batches := fr.2.toList }
    else
      let afterThreshold :=
        if (s1.queue.length : Int) ≥ s1.flushAt then
          let fr := alertFlushSyncStep s1
          (fr.1, 1, fr.2.toList)
        else
          (s1, 0, ([] : List (List AlertQueueItem)))
      let s2 := afterThreshold.1
      let s3 :=
        if s2.flushInterval.truthy && s2.timer.isNone then
          { s2 with timer := some newTimerId }
        else
          s2
      { state := s3, immediateCallback := false,
        flushCalls := afterThreshold.2.1, batches := afterThreshold.2.2 }

/-- The public alert entry point, src/unnamed/part_000 lines 83-87:
`_validate(message, 'alert')` runs first and throws on failure (modelled
as the error branch, in which the callback is never invoked and the state
is untouched); only then is the event enqueued. -/
def alertCall (s : AlertClientState) (distinctId : String) (message : JSValue)
    (cb : Nat) (now : Int) (libVersion : String) (newTimerId : Nat) :
    Except String AlertEnqueueResult :=
  match eventValidation message "alert" with
  | .error e => .error e
  | .ok _ => .ok (enqueueAlert s "alert" distinctId message cb now libVersion newTimerId)

/-- The queue after a public alert call: unchanged when validation threw. -/
def alertQueueAfter (s : AlertClientState) (distinctId : String) (message : JSValue)
    (cb : Nat) (now : Int) (libVersion : String) (newTimerId : Nat) : List AlertQueueItem :=
  match alertCall s distinctId message cb now libVersion newTimerId with
  | .error _ => s.queue
  | .ok r => r.state.queue

/-- The server response attached to an axios error, as far as the retry
classifier reads it. -/
structure AxiosResponse where
  status : Int
deriving DecidableEq

/-- An axios error value as the retry classifier observes it: an optional
error code and an optional server response. -/
structure AxiosError where
  code : Option String := none
  response : Option AxiosResponse := none
deriving DecidableEq

/-- Modelled from the spec: axiosRetry.isNetworkError, the canonical
network-error predicate of the axios-retry dependency (not part of this
repository's sources) — a connection-level failure that received no
response, carries an error code, and is not an explicit client abort
(ECONNABORTED); such errors (e.g. ETIMEDOUT) are classified retryable. -/
def isNetworkError (e : AxiosError) : Bool :=
  e.response.isNone &&
    (match e.code with
     | none => false
     | some c => c != "ECONNABORTED")

/-- _isErrorRetryable, src/unnamed/part_001 lines 245-267. -/
def isErrorRetryable (e : AxiosError) : Bool :=
  if isNetworkError e then
    true
  else
    match e.response with
    | none => false
    | some r =>
      if 500 ≤ r.status ∧ r.status ≤ 599 then
        true
      else if r.status = 429 then
        true
      else
        false

/-- The timer-arming step at the end of enqueue (src/unnamed/part_001 lines
150-152): arm a fresh one-shot flush timer when the flush interval is
truthy and no timer handle is currently stored. -/
def armTimer (t : ClientState) (tid : Nat) : ClientState :=
  if t.flushInterval.truthy && t.timer.isNone then { t with timer := some tid } else t

/-- A fixed concrete caller message used by concrete instantiations. -/
def msg0 : MessageIn := { userId := "user-1" }

/-- A fixed concrete payload for witness instantiations. -/
def payload0 : EventPayload :=
  { eventType := "track", userId := "u", timestamp := 0, messageId := "m1",
    sentAt := none, receivedAt := none }

/-- A concrete queue item. -/
def itemA : QueueItem := { message := payload0, callback := 1 }

/-- A concrete enabled client with one queued item and flushAt 2. -/
def sFlush : ClientState :=
  { queue := [itemA], flushAt := 2, flushInterval := .int 10000,
    flushed := true, enable := true, timer := none }

/-- The batch dispatched by a flush of the concrete one-item client. -/
def batchA : List QueueItem := [stampSent 3 itemA]

/-- A concrete enabled never-flushed client. -/
def s3idle : ClientState :=
  { queue := [], flushAt := 20, flushInterval := .int 10000,
    flushed := false, enable := true, timer := none }

/-- A concrete enabled client at the threshold (flushAt 1, latch set). -/
def s4thr : ClientState :=
  { queue := [], flushAt := 1, flushInterval := .int 10000,
    flushed := true, enable := true, timer := none }

/-- The failure condition of one generic validation rule: the field is
present and truthy but carries the wrong component-type tag. -/
def genericFieldBad (ev : JSValue) (kr : String × String) : Bool :=
  (ev.getField kr.1).truthy && ((ev.getField kr.1).typeTag != kr.2)

/-- A caller message carrying an empty-string messageId (present but falsy). -/
def msg8 : MessageIn := { userId := "u", messageId := some "" }

/-- A small alert event whose required message field is present but empty. -/
def ev6 : JSValue := .vobj [("message", .vstr ""), ("name", .vstr "hello")]

/-- A concrete disabled track/identify client. -/
def s9c : ClientState :=
  { queue := [], flushAt := 20, flushInterval := .int 10000,
    flushed := false, enable := false, timer := none }

/-- A concrete disabled alert client. -/
def s9a : AlertClientState :=
  { queue := [], flushAt := 20, flushInterval := .int 10000,
    flushed := false, enable := false, timer := none }

/-- An alert event missing its required message field. -/
def ev9bad : JSValue := .vobj [("name", .vstr "my-alert")]

/-! ## Theorems -/

/-- Claim C7: _isErrorRetryable returns true exactly when the error is
classified as a network error by the canonical predicate, or it carries a
response whose HTTP status is between 500 and 599 inclusive or equals 429;
in particular it returns false for an empty error object, for a response
with any other status, and for a non-network error with no response. -/
theorem isErrorRetryable_spec :
    (∀ e : AxiosError, isErrorRetryable e = true ↔
      (isNetworkError e = true ∨
        ∃ r, e.response = some r ∧ ((500 ≤ r.status ∧ r.status ≤ 599) ∨ r.status = 429)))
    ∧ isErrorRetryable { } = false
    ∧ isErrorRetryable { code := some "ETIMEDOUT" } = true
    ∧ isErrorRetryable { code := some "ECONNABORTED" } = false
    ∧ isErrorRetryable { response := some { status := 500 } } = true
    ∧ isErrorRetryable { response := some { status := 429 } } = true
    ∧ isErrorRetryable { response := some { status := 200 } } = false := by
  refine ⟨?_, by decide, by decide, by decide, by decide, by decide, by decide⟩
  intro e
  obtain ⟨c, resp⟩ := e
  cases resp with
  | none =>
    cases c with
    | none => simp [isErrorRetryable, isNetworkError]
    | some code =>
      by_cases hc : (code != "ECONNABORTED") = true
      · simp [isErrorRetryable, isNetworkError, hc]
      · simp [isErrorRetryable, isNetworkError, hc]
  | some r =>
    by_cases h5 : 500 ≤ r.status ∧ r.status ≤ 599
    · simp [isErrorRetryable, isNetworkError, h5]
    · by_cases h4 : r.status = 429
      · simp [isErrorRetryable, isNetworkError, h5, h4]
      · simp [isErrorRetryable, isNetworkError, h5, h4]

/-- Claim C10: the client's flushAt equals options.flushAt exactly when that
option is a truthy integer; any falsy value (including 0), any non-integer
number, and an omitted option yield the default 20, while negative
integers are accepted unchanged. -/
theorem resolveFlushAt_spec :
    (∀ i : Int, resolveFlushAt (some (JSNum.int i)) = if i = 0 then 20 else i)
    ∧ resolveFlushAt (some JSNum.nonIntNum) = 20
    ∧ resolveFlushAt (some JSNum.nan) = 20
    ∧ resolveFlushAt none = 20
    ∧ (∀ v : JSNum,
        ((v.truthy && v.isIntegerNum) = true ∧ resolveFlushAt (some v) = v.intVal)
        ∨ ((v.truthy && v.isIntegerNum) = false ∧ resolveFlushAt (some v) = 20)) := by
  refine ⟨?_, by decide, by decide, by decide, ?_⟩
  · intro i
    by_cases h : i = 0 <;>
      simp [resolveFlushAt, JSNum.truthy, JSNum.isIntegerNum, JSNum.intVal, h]
  · intro v
    cases v with
    | int i =>
      by_cases h : i = 0
      · right
        simp [resolveFlushAt, JSNum.truthy, JSNum.isIntegerNum, h]
      · left
        simp [resolveFlushAt, JSNum.truthy, JSNum.isIntegerNum, JSNum.intVal, h]
    | nonIntNum => right; exact ⟨by decide, by decide⟩
    | nan => right; exact ⟨by decide, by decide⟩

/-- Claim C5, counterexample: a client constructed with flushInterval 0 does
not have timer-based flushing disabled — the constructor coalesces the 0 to
the default 10000, and the second enqueue (queue below the threshold) arms
a flush timer. -/
theorem flushInterval_zero_still_arms_timer :
    (initClient { flushInterval := some (JSNum.int 0) }).flushInterval = JSNum.int 10000
    ∧ (enqueue
        (enqueue (initClient { flushInterval := some (JSNum.int 0) })
          "track" { userId := "u" } 1 0 "id1" "h1" "u1" 41).state
        "track" { userId := "u" } 2 1 "id2" "h2" "u2" 42).state.timer = some 42 := by
  constructor
  · rfl
  · rfl

/-- Claim C5, amended: passing flushInterval 0 (or any falsy value) to the
constructor does not disable timer-based flushing; it is coalesced to the
default 10000 ms exactly like an omitted option, so the client's
flushInterval is always truthy, while a truthy option value is kept. -/
theorem resolveFlushInterval_spec :
    resolveFlushInterval (some (JSNum.int 0)) = JSNum.int 10000
    ∧ resolveFlushInterval none = JSNum.int 10000
    ∧ (∀ o : Option JSNum, (resolveFlushInterval o).truthy = true)
    ∧ (∀ v : JSNum, v.truthy = true → resolveFlushInterval (some v) = v) := by
  refine ⟨by decide, by decide, ?_, ?_⟩
  · intro o
    cases o with
    | none => decide
    | some v =>
      cases v with
      | int i =>
        by_cases h : i = 0 <;> simp [resolveFlushInterval, JSNum.truthy, h]
      | nonIntNum => decide
      | nan => decide
  · intro v hv
    simp [resolveFlushInterval, hv]

/-- Witness for the amended C5: a truthy interval of 7 ms is kept. -/
theorem resolveFlushInterval_spec_witness :
    resolveFlushInterval (some (JSNum.int 7)) = JSNum.int 7 :=
  resolveFlushInterval_spec.2.2.2 (JSNum.int 7) (by decide)

/-- Helper: the synchronous flush step never changes the flushed latch. -/
theorem flushSyncStep_keeps_flushed (s : ClientState) (now : Int) :
    (flushSyncStep s now).1.flushed = s.flushed := by
  by_cases h : s.enable = false
  · simp [flushSyncStep, h]
  · simp only [flushSyncStep, h, if_false]
    by_cases h2 : s.queue.length = 0 <;> simp [h2]

/-- Helper: on an enabled client the synchronous flush step always leaves the
timer handle cleared (it clears the timer before even looking at the queue). -/
theorem flushSyncStep_clears_timer (s : ClientState) (now : Int)
    (hen : s.enable = true) :
    (flushSyncStep s now).1.timer = none := by
  unfold flushSyncStep
  rw [hen]
  simp only [Bool.true_eq_false, if_false]
  split <;> rfl

/-- Helper: the synchronous flush step never changes the flush interval. -/
theorem flushSyncStep_keeps_flushInterval (s : ClientState) (now : Int) :
    (flushSyncStep s now).1.flushInterval = s.flushInterval := by
  by_cases h : s.enable = false
  · simp [flushSyncStep, h]
  · simp only [flushSyncStep, h, if_false]
    by_cases h2 : s.queue.length = 0 <;> simp [h2]

/-- Helper: a falsy flush interval arms nothing. -/
theorem armTimer_falsy (t : ClientState) (tid : Nat)
    (h : t.flushInterval.truthy = false) : armTimer t tid = t := by
  simp [armTimer, h]

/-- Helper: an already-armed timer handle is kept untouched. -/
theorem armTimer_kept (t : ClientState) (tid : Nat) (x : Nat)
    (h : t.timer = some x) : armTimer t tid = t := by
  simp [armTimer, h]

/-- Helper: with a truthy interval and no armed timer, a fresh timer is armed. -/
theorem armTimer_arms (t : ClientState) (tid : Nat)
    (h1 : t.flushInterval.truthy = true) (h2 : t.timer = none) :
    armTimer t tid = { t with timer := some tid } := by
  simp [armTimer, h1, h2]

/-- Helper: the first-enqueue branch of enqueue (latch unset) pushes the item,
sets the latch and runs the synchronous flush step, arming no timer. -/
theorem enqueue_first (s : ClientState) (event : String) (message : MessageIn)
    (cb : Nat) (now : Int) (g h u : String) (tid : Nat)
    (hen : s.enable = true) (hfl : s.flushed = false) :
    enqueue s event message cb now g h u tid =
      { state := (flushSyncStep { s with queue := s.queue ++ [{ message := buildPayload event message now g h u, callback := cb }], flushed := true } now).1,
        immediateCallback := false, flushCalls := 1,
        batches := (flushSyncStep { s with queue := s.queue ++ [{ message := buildPayload event message now g h u, callback := cb }], flushed := true } now).2.toList } := by
  simp [enqueue, hen, hfl]

/-- Helper: the size-threshold branch of enqueue (latch set, queue length
after the append at least flushAt) runs the synchronous flush step and then
the timer-arming step. -/
theorem enqueue_threshold (s : ClientState) (event : String) (message : MessageIn)
    (cb : Nat) (now : Int) (g h u : String) (tid : Nat)
    (hen : s.enable = true) (hfl : s.flushed = true)
    (hth : (s.queue.length + 1 : Int) ≥ s.flushAt) :
    enqueue s event message cb now g h u tid =
      { state := armTimer (flushSyncStep { s with queue := s.queue ++ [{ message := buildPayload event message now g h u, callback := cb }] } now).1 tid,
        immediateCallback := false, flushCalls := 1,
        batches := (flushSyncStep { s with queue := s.queue ++ [{ message := buildPayload event message now g h u, callback := cb }] } now).2.toList } := by
  simp [enqueue, armTimer, hen, hfl, hth]

/-- Helper: the trigger-free branch of enqueue (latch set, queue still below
flushAt) only pushes the item and runs the timer-arming step. -/
theorem enqueue_no_trigger (s : ClientState) (event : String) (message : MessageIn)
    (cb : Nat) (now : Int) (g h u : String) (tid : Nat)
    (hen : s.enable = true) (hfl : s.flushed = true)
    (hth : ¬ ((s.queue.length + 1 : Int) ≥ s.flushAt)) :
    enqueue s event message cb now g h u tid =
      { state := armTimer { s with queue := s.queue ++ [{ message := buildPayload event message now g h u, callback := cb }] } tid,
        immediateCallback := false, flushCalls := 0,
        batches := [] } := by
  simp [enqueue, armTimer, hen, hfl, hth]

/-- Claim C1, counterexample: the constructor accepts the truthy integer -1
as flushAt, and on the resulting enabled client with one queued item a flush
removes 0 items (JavaScript splice clamps a negative delete count to 0),
not min(flushAt, queue.length) = -1.  The state is reached by one enqueue
on the freshly constructed client. -/
theorem flush_negative_flushAt_counterexample :
    ((enqueue (initClient { flushAt := some (JSNum.int (-1)) })
        "track" msg0 1 0 "id1" "h1" "u1" 41).state.enable = true)
    ∧ ((enqueue (initClient { flushAt := some (JSNum.int (-1)) })
        "track" msg0 1 0 "id1" "h1" "u1" 41).state.queue.length = 1)
    ∧ ((enqueue (initClient { flushAt := some (JSNum.int (-1)) })
        "track" msg0 1 0 "id1" "h1" "u1" 41).state.flushAt = -1)
    ∧ (((enqueue (initClient { flushAt := some (JSNum.int (-1)) })
          "track" msg0 1 0 "id1" "h1" "u1" 41).state.queue.length : Int)
        - ((flushSyncStep (enqueue (initClient { flushAt := some (JSNum.int (-1)) })
            "track" msg0 1 0 "id1" "h1" "u1" 41).state 5).1.queue.length : Int)
        ≠ min (-1 : Int) 1) := by
  refine ⟨rfl, rfl, rfl, ?_⟩
  decide

/-- Claim C1, amended: on an enabled client with a non-empty queue, one flush
dispatches exactly the clamped prefix slice of spliceCount items (which
equals min(flushAt, queue.length) whenever flushAt is non-negative, and 0
for a negative flushAt), in FIFO order with sentAt stamped, and leaves
exactly the remaining items queued in their original order. -/
theorem flushSyncStep_slice_spec (s : ClientState) (now : Int)
    (hen : s.enable = true) (hne : s.queue ≠ []) :
    (flushSyncStep s now).2
        = some ((s.queue.take (spliceCount s.queue.length s.flushAt)).map (stampSent now))
    ∧ (flushSyncStep s now).1.queue
        = s.queue.drop (spliceCount s.queue.length s.flushAt)
    ∧ s.queue
        = s.queue.take (spliceCount s.queue.length s.flushAt)
          ++ s.queue.drop (spliceCount s.queue.length s.flushAt)
    ∧ (0 ≤ s.flushAt →
        (spliceCount s.queue.length s.flushAt : Int)
          = min s.flushAt (s.queue.length : Int)) := by
  have hlen : ¬ s.queue.length = 0 := by
    simpa [List.length_eq_zero] using hne
  have hstep : flushSyncStep s now
      = (ClientState.mk (s.queue.drop (spliceCount s.queue.length s.flushAt))
           s.flushAt s.flushInterval s.flushed s.enable none,
         some ((s.queue.take (spliceCount s.queue.length s.flushAt)).map (stampSent now))) := by
    unfold flushSyncStep
    rw [hen]
    simp [hlen]
  refine ⟨by rw [hstep], by rw [hstep], (List.take_append_drop _ _).symm, ?_⟩
  intro hpos
  unfold spliceCount
  omega

/-- Witness for the amended C1 at a concrete enabled one-item client. -/
theorem flushSyncStep_slice_spec_witness :
    (flushSyncStep sFlush 3).2
        = some ((sFlush.queue.take (spliceCount sFlush.queue.length sFlush.flushAt)).map
            (stampSent 3))
    ∧ (flushSyncStep sFlush 3).1.queue
        = sFlush.queue.drop (spliceCount sFlush.queue.length sFlush.flushAt) :=
  ⟨(flushSyncStep_slice_spec sFlush 3 (by decide) (by decide)).1,
   (flushSyncStep_slice_spec sFlush 3 (by decide) (by decide)).2.1⟩

/-- Claim C2: once the HTTP call of a flush that dispatched a non-empty batch
settles, the `done` fan-out invokes each per-item callback of that batch
exactly once (the invocation list is exactly the batch's callbacks in order,
followed by the flush callback), every invocation carries the outcome's
error and data, the error is absent on success, is an Error built from the
response's status text when the failure carries a response, is the raw
transport error otherwise, and the promise form resolves or rejects with
that same outcome. -/
theorem flushSettle_spec (s : ClientState) (now : Int) (b : List QueueItem)
    (flushCb : Nat) (o : HttpOutcome)
    (_hb : (flushSyncStep s now).2 = some b) (_hne : b ≠ []) :
    (flushSettle b (some flushCb) o).map CallbackCall.callbackId
        = b.map QueueItem.callback ++ [flushCb]
    ∧ (∀ call ∈ flushSettle b (some flushCb) o,
        call.error = outcomeErr o ∧ call.data = outcomeData o)
    ∧ (∀ r, o = HttpOutcome.ok r →
        outcomeErr o = none ∧ outcomeData o = some r ∧ flushPromise o = Except.ok r)
    ∧ (∀ st, o = HttpOutcome.failWithResponse st →
        outcomeErr o = some (JsErr.errorObj st)
        ∧ flushPromise o = Except.error (JsErr.errorObj st))
    ∧ (∀ err, o = HttpOutcome.failNoResponse err →
        outcomeErr o = some err ∧ flushPromise o = Except.error err) := by
  refine ⟨?_, ?_, ?_, ?_, ?_⟩
  · simp [flushSettle, List.map_map, Function.comp]
  · intro call hcall
    simp only [flushSettle, List.mem_append, List.mem_map, List.mem_singleton] at hcall
    rcases hcall with ⟨it, _, rfl⟩ | rfl
    · exact ⟨rfl, rfl⟩
    · exact ⟨rfl, rfl⟩
  · rintro r rfl
    exact ⟨rfl, rfl, rfl⟩
  · rintro st rfl
    exact ⟨rfl, rfl⟩
  · rintro err rfl
    exact ⟨rfl, rfl⟩

/-- Witness for C2: the settle of a failure with a "Bad Request" response on
the concrete one-item batch invokes the item's callback then the flush
callback. -/
theorem flushSettle_spec_witness :
    (flushSettle batchA (some 9) (HttpOutcome.failWithResponse "Bad Request")).map
        CallbackCall.callbackId
      = batchA.map QueueItem.callback ++ [9] :=
  (flushSettle_spec sFlush 3 batchA 9 (HttpOutcome.failWithResponse "Bad Request")
    (by decide) (by decide)).1

/-- Claim C3: on an enabled client, the very first enqueue (flushed latch
still unset) triggers an immediate flush and sets the one-shot latch; a
flush never resets the latch; and once the latch is set, an enqueue
triggers an immediate flush exactly when the queue length after the append
reaches flushAt. -/
theorem enqueue_flush_triggers (s : ClientState) (event : String) (message : MessageIn)
    (cb : Nat) (now : Int) (g h u : String) (tid : Nat)
    (hen : s.enable = true) :
    (s.flushed = false →
        (enqueue s event message cb now g h u tid).flushCalls = 1
        ∧ (enqueue s event message cb now g h u tid).state.flushed = true)
    ∧ (s.flushed = true →
        ((enqueue s event message cb now g h u tid).flushCalls = 1
          ↔ (s.queue.length + 1 : Int) ≥ s.flushAt))
    ∧ (∀ t : ClientState, ∀ n : Int, (flushSyncStep t n).1.flushed = t.flushed) := by
  refine ⟨?_, ?_, fun t n => flushSyncStep_keeps_flushed t n⟩
  · intro hfl
    unfold enqueue
    simp only [hen, Bool.true_eq_false, if_false, hfl, if_true]
    exact ⟨trivial, (flushSyncStep_keeps_flushed _ _).trans rfl⟩
  · intro hfl
    unfold enqueue
    simp only [hen, Bool.true_eq_false, if_false, hfl, if_false, List.length_append,
      List.length_singleton]
    by_cases hth : ((s.queue.length + 1 : Nat) : Int) ≥ s.flushAt
    · simp only [hth, if_true]
      constructor
      · intro _
        exact_mod_cast hth
      · intro _
        trivial
    · simp only [hth, if_false]
      constructor
      · intro habs
        exact absurd habs (by decide)
      · intro hc
        exact absurd (by exact_mod_cast hc) hth

/-- Witness for C3: the first enqueue on the concrete fresh client flushes
immediately and sets the latch. -/
theorem enqueue_flush_triggers_witness :
    (enqueue s3idle "track" msg0 1 0 "i" "h" "u" 9).flushCalls = 1
    ∧ (enqueue s3idle "track" msg0 1 0 "i" "h" "u" 9).state.flushed = true :=
  (enqueue_flush_triggers s3idle "track" msg0 1 0 "i" "h" "u" 9 (by decide)).1 (by decide)

/-- Claim C4, counterexample: the size-threshold check and the timer check in
enqueue are two separate if statements, not an else-if.  On a client with
flushAt 1 (latch already set by the first enqueue, no timer armed), the
second enqueue fires the size-threshold flush (which clears the timer
handle) and then still arms a fresh flush timer in the same call —
contradicting the claim that a timer is armed only when neither trigger
fired. -/
theorem threshold_flush_still_arms_timer :
    ((enqueue (initClient { flushAt := some (JSNum.int 1) })
        "track" msg0 1 0 "a" "b" "c" 50).state.flushed = true)
    ∧ ((enqueue (initClient { flushAt := some (JSNum.int 1) })
        "track" msg0 1 0 "a" "b" "c" 50).state.timer = none)
    ∧ ((enqueue (initClient { flushAt := some (JSNum.int 1) })
        "track" msg0 1 0 "a" "b" "c" 50).state.flushInterval = JSNum.int 10000)
    ∧ ((enqueue (enqueue (initClient { flushAt := some (JSNum.int 1) })
          "track" msg0 1 0 "a" "b" "c" 50).state
        "track" msg0 2 1 "d" "e" "f" 51).flushCalls = 1)
    ∧ ((enqueue (enqueue (initClient { flushAt := some (JSNum.int 1) })
          "track" msg0 1 0 "a" "b" "c" 50).state
        "track" msg0 2 1 "d" "e" "f" 51).state.timer = some 51) := by
  refine ⟨rfl, rfl, rfl, rfl, rfl⟩

/-- Claim C4, amended: on an enabled client, the first-enqueue branch never
leaves a timer armed; an enqueue never arms a timer when the client's flush
interval is falsy (it then either keeps the old handle or a triggered flush
has cleared it); an already-armed timer is kept untouched by any enqueue
that triggers no flush; flush clears any armed timer before draining; but
when the size-threshold trigger fires with a truthy flush interval, the
flush clears the timer and the same enqueue call then arms a fresh one. -/
theorem enqueue_timer_discipline (s : ClientState) (event : String) (message : MessageIn)
    (cb : Nat) (now : Int) (g h u : String) (tid : Nat)
    (hen : s.enable = true) :
    (s.flushed = false → (enqueue s event message cb now g h u tid).state.timer = none)
    ∧ (s.flushInterval.truthy = false →
        ((enqueue s event message cb now g h u tid).state.timer = s.timer
          ∨ (enqueue s event message cb now g h u tid).state.timer = none))
    ∧ (∀ t : Nat, s.timer = some t →
        (enqueue s event message cb now g h u tid).flushCalls = 0 →
        (enqueue s event message cb now g h u tid).state.timer = some t)
    ∧ (∀ st : ClientState, ∀ n : Int, st.enable = true →
        (flushSyncStep st n).1.timer = none)
    ∧ (s.flushed = true → (s.queue.length + 1 : Int) ≥ s.flushAt →
        s.flushInterval.truthy = true →
        (enqueue s event message cb now g h u tid).state.timer = some tid) := by
  refine ⟨?_, ?_, ?_, fun st n hst => flushSyncStep_clears_timer st n hst, ?_⟩
  · intro hfl
    rw [enqueue_first s event message cb now g h u tid hen hfl]
    exact flushSyncStep_clears_timer _ _ hen
  · intro hint
    by_cases hfl : s.flushed = false
    · rw [enqueue_first s event message cb now g h u tid hen hfl]
      exact Or.inr (flushSyncStep_clears_timer _ _ hen)
    · rw [Bool.not_eq_false] at hfl
      by_cases hth : (s.queue.length + 1 : Int) ≥ s.flushAt
      · have hQ := armTimer_falsy
          (flushSyncStep { s with queue := s.queue ++ [{ message := buildPayload event message now g h u, callback := cb }] } now).1
          tid (by rw [flushSyncStep_keeps_flushInterval]; exact hint)
        rw [enqueue_threshold s event message cb now g h u tid hen hfl hth, hQ]
        exact Or.inr (flushSyncStep_clears_timer _ _ hen)
      · have hQ := armTimer_falsy
          { s with queue := s.queue ++ [{ message := buildPayload event message now g h u, callback := cb }] }
          tid hint
        rw [enqueue_no_trigger s event message cb now g h u tid hen hfl hth, hQ]
        exact Or.inl rfl
  · intro t htimer hcalls
    by_cases hfl : s.flushed = false
    · rw [enqueue_first s event message cb now g h u tid hen hfl] at hcalls
      exact absurd hcalls one_ne_zero
    · rw [Bool.not_eq_false] at hfl
      by_cases hth : (s.queue.length + 1 : Int) ≥ s.flushAt
      · rw [enqueue_threshold s event message cb now g h u tid hen hfl hth] at hcalls
        exact absurd hcalls one_ne_zero
      · have hQ := armTimer_kept
          { s with queue := s.queue ++ [{ message := buildPayload event message now g h u, callback := cb }] }
          tid t htimer
        rw [enqueue_no_trigger s event message cb now g h u tid hen hfl hth, hQ]
        exact htimer
  · intro hfl hth hint
    have hQ := armTimer_arms
      (flushSyncStep { s with queue := s.queue ++ [{ message := buildPayload event message now g h u, callback := cb }] } now).1
      tid (by rw [flushSyncStep_keeps_flushInterval]; exact hint)
      (flushSyncStep_clears_timer _ _ hen)
    rw [enqueue_threshold s event message cb now g h u tid hen hfl hth, hQ]

/-- Witness for the amended C4: on the concrete threshold client the
size-triggered enqueue leaves a freshly armed timer. -/
theorem enqueue_timer_discipline_witness :
    (enqueue s4thr "track" msg0 2 1 "d" "e" "f" 51).state.timer = some 51 :=
  (enqueue_timer_discipline s4thr "track" msg0 2 1 "d" "e" "f" 51
    (by decide)).2.2.2.2 (by decide) (by decide) (by decide)

/-- Helper: the generic rule loop fails exactly when some rule's field is
truthy with the wrong type tag. -/
theorem checkGenericRules_fails_iff (ev : JSValue) (l : List (String × String)) :
    validationFails (checkGenericRules ev l) = true ↔ l.any (genericFieldBad ev) = true := by
  induction l with
  | nil => simp [checkGenericRules, validationFails]
  | cons kr rest ih =>
    obtain ⟨key, rule⟩ := kr
    by_cases htr : (ev.getField key).truthy = false
    · simp only [checkGenericRules, htr, if_true, List.any_cons]
      rw [ih]
      have hbad : genericFieldBad ev (key, rule) = false := by
        simp [genericFieldBad, htr]
      simp [hbad]
    · rw [Bool.not_eq_false] at htr
      by_cases hty : (ev.getField key).typeTag = rule
      · simp only [checkGenericRules, htr, Bool.true_eq_false, if_false, hty, if_true,
          List.any_cons]
        rw [ih]
        have hbad : genericFieldBad ev (key, rule) = false := by
          simp [genericFieldBad, hty]
        simp [hbad]
      · simp only [checkGenericRules, htr, Bool.true_eq_false, if_false, hty, if_false,
          List.any_cons]
        have hbad : genericFieldBad ev (key, rule) = true := by
          simp [genericFieldBad, htr, hty]
        simp [hbad, validationFails]

/-- Helper: when the event is an object under the size bound, the generic
validation is exactly the rule loop. -/
theorem validateGenericEvent_of_checks (ev : JSValue) (ho : ev.typeTag = "object")
    (hsz : (jsonOfVal ev).utf8ByteSize < MAX_SIZE) :
    validateGenericEvent ev = checkGenericRules ev genericValidationRules := by
  unfold validateGenericEvent
  rw [if_pos ho, if_pos hsz]

/-- Helper: a generic validation failure is the whole validation's failure. -/
theorem eventValidation_of_generic_error (ev : JSValue) (ty : String) (e : String)
    (hg : validateGenericEvent ev = Except.error e) :
    eventValidation ev ty = Except.error e := by
  unfold eventValidation
  rw [hg]

/-- Helper: when the generic validation passes, validating as an alert is
exactly the alert-specific check. -/
theorem eventValidation_alert_of_generic_ok (ev : JSValue)
    (hg : validateGenericEvent ev = Except.ok ()) :
    eventValidation ev "alert" = validateAlertEvent ev := by
  unfold eventValidation
  rw [hg]
  exact rfl

/-- Claim C6, counterexample: an alert event whose required message field is
present (an empty string) — hence not missing — and which meets every other
condition of the claim (a plain object, far below the size bound, all
generic fields fine) is still rejected: the code asserts truthiness of the
required fields, not mere presence. -/
theorem empty_message_fails_validation :
    ev6.typeTag = "object"
    ∧ (jsonOfVal ev6).utf8ByteSize < 32768
    ∧ checkGenericRules ev6 genericValidationRules = Except.ok ()
    ∧ ev6.getField "message" = JSValue.vstr ""
    ∧ eventValidation ev6 "alert" = Except.error "You must pass a \"message\"." := by
  refine ⟨rfl, by decide, rfl, rfl, rfl⟩

/-- Claim C6, amended: validate(event, 'alert') fails exactly when the event
is not a plain object, or its JSON serialization reaches 32768 UTF-8 bytes,
or some generic field is present and truthy with a type tag outside its
allowed set, or a required alert field (message, name) is missing or falsy;
and when validation fails, a public alert call throws before enqueueing, so
the queue is unchanged. -/
theorem eventValidation_alert_spec :
    (∀ ev : JSValue, validationFails (eventValidation ev "alert") = true ↔
      (ev.typeTag ≠ "object"
        ∨ MAX_SIZE ≤ (jsonOfVal ev).utf8ByteSize
        ∨ genericValidationRules.any (genericFieldBad ev) = true
        ∨ (ev.getField "message").truthy = false
        ∨ (ev.getField "name").truthy = false))
    ∧ (∀ (s : AlertClientState) (d : String) (ev : JSValue) (cb : Nat) (now : Int)
        (lv : String) (tid : Nat),
        validationFails (eventValidation ev "alert") = true →
        alertQueueAfter s d ev cb now lv tid = s.queue) := by
  constructor
  · intro ev
    by_cases ho : ev.typeTag = "object"
    · by_cases hsz : (jsonOfVal ev).utf8ByteSize < MAX_SIZE
      · have hvg : validateGenericEvent ev = checkGenericRules ev genericValidationRules :=
          validateGenericEvent_of_checks ev ho hsz
        cases hcg : checkGenericRules ev genericValidationRules with
        | error e =>
          rw [eventValidation_of_generic_error ev "alert" e (hvg.trans hcg)]
          have hany : genericValidationRules.any (genericFieldBad ev) = true := by
            have hx := (checkGenericRules_fails_iff ev genericValidationRules).mp
            rw [hcg] at hx
            exact hx rfl
          exact iff_of_true rfl (Or.inr (Or.inr (Or.inl hany)))
        | ok uu =>
          cases uu
          rw [eventValidation_alert_of_generic_ok ev (hvg.trans hcg)]
          have hany : ¬ genericValidationRules.any (genericFieldBad ev) = true := by
            intro hc
            have hx := (checkGenericRules_fails_iff ev genericValidationRules).mpr hc
            rw [hcg] at hx
            exact Bool.false_ne_true hx
          unfold validateAlertEvent
          by_cases hm : (ev.getField "message").truthy = false
          · rw [if_pos hm]
            exact iff_of_true rfl (Or.inr (Or.inr (Or.inr (Or.inl hm))))
          · rw [if_neg hm]
            by_cases hnm : (ev.getField "name").truthy = false
            · rw [if_pos hnm]
              exact iff_of_true rfl (Or.inr (Or.inr (Or.inr (Or.inr hnm))))
            · rw [if_neg hnm]
              refine iff_of_false (by simp [validationFails]) ?_
              rintro (hc | hc | hc | hc | hc)
              · exact hc ho
              · omega
              · exact hany hc
              · exact hm hc
              · exact hnm hc
      · have hvg : validateGenericEvent ev = Except.error "Your message must be < 32kb." := by
          unfold validateGenericEvent
          rw [if_pos ho, if_neg hsz]
        rw [eventValidation_of_generic_error ev "alert" _ hvg]
        exact iff_of_true rfl (Or.inr (Or.inl (by omega)))
    · have hvg : validateGenericEvent ev = Except.error "You must pass a message object." := by
        unfold validateGenericEvent
        rw [if_neg ho]
      rw [eventValidation_of_generic_error ev "alert" _ hvg]
      exact iff_of_true rfl (Or.inl ho)
  · intro s d ev cb now lv tid hv
    unfold alertQueueAfter alertCall
    cases hval : eventValidation ev "alert" with
    | error e => rfl
    | ok uu =>
      rw [hval] at hv
      exact absurd hv (by simp [validationFails])

/-- Witness for the amended C6: the empty-message alert event fails
validation, and a public alert call with it leaves the concrete client's
queue unchanged. -/
theorem eventValidation_alert_spec_witness :
    alertQueueAfter s9a "d1" ev6 7 0 "0.2.10" 3 = s9a.queue :=
  eventValidation_alert_spec.2 s9a "d1" ev6 7 0 "0.2.10" 3 (by rfl)

/-- Claim C8, counterexample: a caller-supplied messageId that is present but
empty is not kept — the `!payload.messageId` fallback replaces it with the
hash-and-uuid id. -/
theorem messageId_empty_caller_replaced :
    msg8.messageId = some ""
    ∧ (buildPayload "track" msg8 0 "gen" "HASH" "UUID").messageId = "node-HASH-UUID"
    ∧ (buildPayload "track" msg8 0 "gen" "HASH" "UUID").messageId ≠ "" := by
  refine ⟨rfl, rfl, by decide⟩

/-- Claim C8, amended: the stored messageId equals the caller's messageId
when one is present and non-empty; with no caller id it is the uniqid value
when that is non-empty; whenever the id would still be empty the
hash-plus-uuid fallback is used; the stored id is never empty; and flush
never modifies any stored messageId (it only stamps sentAt): batch ids
followed by remaining-queue ids are exactly the original queue's ids. -/
theorem buildPayload_messageId_spec :
    (∀ (event : String) (message : MessageIn) (now : Int) (g h u : String) (mid : String),
        message.messageId = some mid → mid ≠ "" →
        (buildPayload event message now g h u).messageId = mid)
    ∧ (∀ (event : String) (message : MessageIn) (now : Int) (g h u : String),
        message.messageId = none → g ≠ "" →
        (buildPayload event message now g h u).messageId = g)
    ∧ (∀ (event : String) (message : MessageIn) (now : Int) (g h u : String),
        message.messageId.getD g = "" →
        (buildPayload event message now g h u).messageId = "node-" ++ h ++ "-" ++ u)
    ∧ (∀ (event : String) (message : MessageIn) (now : Int) (g h u : String),
        (buildPayload event message now g h u).messageId ≠ "")
    ∧ (∀ (s : ClientState) (now : Int),
        ((flushSyncStep s now).2.getD []).map (fun it => it.message.messageId)
            ++ (flushSyncStep s now).1.queue.map (fun it => it.message.messageId)
          = s.queue.map (fun it => it.message.messageId)) := by
  have hfb : ∀ h u : String, ("node-" ++ h ++ "-" ++ u) ≠ "" := by
    intro h u hcon
    have hlen := congrArg String.length hcon
    rw [String.length_append, String.length_append, String.length_append] at hlen
    have h5 : "node-".length = 5 := rfl
    have h1 : "-".length = 1 := rfl
    have h0 : "".length = 0 := rfl
    omega
  refine ⟨?_, ?_, ?_, ?_, ?_⟩
  · intro event message now g h u mid hm hne
    simp [buildPayload, hm, hne]
  · intro event message now g h u hm hne
    simp [buildPayload, hm, hne]
  · intro event message now g h u hz
    simp only [buildPayload]
    rw [if_pos hz]
  · intro event message now g h u
    by_cases hz : message.messageId.getD g = ""
    · simp only [buildPayload]
      rw [if_pos hz]
      exact hfb h u
    · simp only [buildPayload]
      rw [if_neg hz]
      exact hz
  · intro s now
    by_cases hs : s.enable = false
    · simp [flushSyncStep, hs]
    · rw [Bool.not_eq_false] at hs
      by_cases h2 : s.queue.length = 0
      · simp [flushSyncStep, hs, h2]
      · have hstep : flushSyncStep s now
            = (ClientState.mk (s.queue.drop (spliceCount s.queue.length s.flushAt))
                 s.flushAt s.flushInterval s.flushed s.enable none,
               some ((s.queue.take (spliceCount s.queue.length s.flushAt)).map (stampSent now))) := by
          unfold flushSyncStep
          rw [hs]
          simp [h2]
        rw [hstep]
        simp only [Option.getD_some, List.map_map]
        have hcomp : ((fun it : QueueItem => it.message.messageId) ∘ stampSent now)
            = fun it : QueueItem => it.message.messageId := by
          funext it
          rfl
        rw [hcomp, ← List.map_append, List.take_append_drop]

/-- Witness for the amended C8: a non-empty caller messageId is kept. -/
theorem buildPayload_messageId_spec_witness :
    (buildPayload "track" { userId := "u", messageId := some "abc" } 0 "g" "h" "u").messageId
      = "abc" :=
  buildPayload_messageId_spec.1 "track" { userId := "u", messageId := some "abc" } 0
    "g" "h" "u" "abc" rfl (by decide)

/-- Claim C9, counterexample: on a disabled client, a public alert call with
an event that fails validation throws synchronously (validation runs before
the enable check), so the supplied callback is never invoked — the modelled
call ends in the error branch, not in a callback invocation; the queue is
still unchanged. -/
theorem disabled_invalid_alert_throws :
    s9a.enable = false
    ∧ alertCall s9a "d1" ev9bad 7 0 "0.2.10" 3 = Except.error "You must pass a \"message\"."
    ∧ alertQueueAfter s9a "d1" ev9bad 7 0 "0.2.10" 3 = s9a.queue := by
  refine ⟨rfl, rfl, rfl⟩

/-- Claim C9, amended: on a disabled client, enqueue and flush immediately
invoke the supplied callback with no error and no data and leave the whole
state unchanged, and a public alert call does the same provided its event
passes validation; an event that fails validation instead throws before the
enable check (see the counterexample), with the queue still untouched. -/
theorem disabled_client_noop :
    (∀ (s : ClientState) (event : String) (message : MessageIn) (cb : Nat) (now : Int)
        (g h u : String) (tid : Nat), s.enable = false →
        enqueue s event message cb now g h u tid
          = { state := s, immediateCallback := true, flushCalls := 0, batches := [] })
    ∧ (∀ (s : ClientState) (now : Int), s.enable = false →
        flushSyncStep s now = (s, none))
    ∧ (∀ (s : AlertClientState) (d : String) (ev : JSValue) (cb : Nat) (now : Int)
        (lv : String) (tid : Nat), s.enable = false →
        validationFails (eventValidation ev "alert") = false →
        alertCall s d ev cb now lv tid
          = Except.ok { state := s, immediateCallback := true, flushCalls := 0, batches := [] }) := by
  refine ⟨?_, ?_, ?_⟩
  · intro s event message cb now g h u tid hs
    simp [enqueue, hs]
  · intro s now hs
    simp [flushSyncStep, hs]
  · intro s d ev cb now lv tid hs hv
    unfold alertCall
    cases hval : eventValidation ev "alert" with
    | error e =>
      rw [hval] at hv
      exact absurd hv (by simp [validationFails])
    | ok uu =>
      simp [enqueueAlert, hs]

/-- Witness for the amended C9: on the concrete disabled client an enqueue is
a pure no-op that immediately invokes the callback. -/
theorem disabled_client_noop_witness :
    enqueue s9c "track" msg0 1 0 "g" "h" "u" 9
      = { state := s9c, immediateCallback := true, flushCalls := 0, batches := [] } :=
  disabled_client_noop.1 s9c "track" msg0 1 0 "g" "h" "u" 9 rfl

end SequenceNode
